import Mathlib

/-!
Shallow embedding of the league-tracker reconciliation and rank-delta engine.

Sources embedded here (Go):
* internal/utils/rank_value.go — GetRankValue
* internal/storage/storage.go (current version, first document chunk) —
  tierOrder, CalculateLPChange, AddMatchAndGetLPChange, IncrementPlacementGames,
  GetCurrentPlacementGames, AddPlacementMatch, insertMatchData,
  CreateNewRowInLPHistory, UpdateLeagueEntry, GetPreviousRank
* internal/storage/storage.go (older version, second document chunk) —
  CalculateLPChangeOld (the CalculateLPChange of that chunk)
* the match-tracker file (unnamed part_006, first chunk) — TrackMatches helpers:
  checkSummonerUpdates, hasRankChanged, processRankChange, processNewMatch
* the retry utility (unnamed part_013) — RetryConfig, DefaultRetryConfig,
  RetryWithBackoff, calculateBackoff, minDuration

Go machine integers are modelled as Int (the values involved stay far from the
int64 range in every claim considered).  Go strings are Lean Strings;
strings.ToUpper is modelled by goToUpper, which agrees with it on the
ASCII inputs the tracker handles.  Database rows for a single tracked player
are modelled by an explicit StorageState record, and each storage method is a
pure state transformer derived from its SQL statement.  Paths where the Go
code would dereference a nil pointer are modelled as `none`.
-/

namespace LeagueTracker

/-- Model of the Go strings.ToUpper restricted to the ASCII inputs the tracker
handles (Char.toUpper uppercases exactly the ASCII letters).  Written with
List.map so that it reduces inside the kernel. -/
def goToUpper (s : String) : String :=
  ⟨s.data.map Char.toUpper⟩

/-- From internal/utils/rank_value.go: GetRankValue returns an int that
represents the level of a division string, case-insensitively: "I" ↦ 4 (best),
"II" ↦ 3, "III" ↦ 2, "IV" ↦ 1, anything else ↦ 0. -/
def GetRankValue (rank : String) : Int :=
  let r := (goToUpper rank)
  if r = "I" then 4
  else if r = "II" then 3
  else if r = "III" then 2
  else if r = "IV" then 1
  else 0

/-- From storage.go: the `tierOrder` map.  `none` models a key that is absent
from the Go map. -/
def tierOrder (t : String) : Option Int :=
  if t = "IRON" then some 0
  else if t = "BRONZE" then some 1
  else if t = "SILVER" then some 2
  else if t = "GOLD" then some 3
  else if t = "PLATINUM" then some 4
  else if t = "EMERALD" then some 5
  else if t = "DIAMOND" then some 6
  else if t = "MASTER" then some 7
  else if t = "GRANDMASTER" then some 8
  else if t = "CHALLENGER" then some 9
  else none

/-- From storage.go (current version): the `highTiers` apex-set membership map
built at the top of CalculateLPChange. -/
def highTiers (t : String) : Bool :=
  t = "MASTER" || t = "GRANDMASTER" || t = "CHALLENGER"

/-- From storage.go, current version (the chunk around line 414):
CalculateLPChange.  A Go map read `tierOrder[t]` yields the zero value 0 for a
missing key, modelled by `Option.getD _ 0`. -/
def CalculateLPChange (oldTier newTier oldRank newRank : String)
    (oldLP newLP : Int) : Int :=
  let oldTierU := (goToUpper oldTier)
  let newTierU := (goToUpper newTier)
  if highTiers oldTierU && highTiers newTierU then
    newLP - oldLP
  else
    let oldDivision := GetRankValue oldRank
    let newDivision := GetRankValue newRank
    if oldTierU ≠ newTierU then
      if (tierOrder newTierU).getD 0 > (tierOrder oldTierU).getD 0 then
        (100 - oldLP) + newLP
      else
        -(oldLP) - (100 - newLP)
    else if oldDivision ≠ newDivision then
      if newDivision > oldDivision then
        (100 - oldLP) + newLP
      else
        -(oldLP) - (100 - newLP)
    else
      newLP - oldLP

/-- From storage.go, older version (the chunk around line 1034): the
CalculateLPChange of that chunk.  It checks map membership explicitly (`oldExists`,
`newExists`) and falls back to the naive linear diff for unknown tiers, but
compares divisions in the opposite direction from the current version. -/
def CalculateLPChangeOld (oldTier newTier oldRank newRank : String)
    (oldLP newLP : Int) : Int :=
  let oldTierU := (goToUpper oldTier)
  let newTierU := (goToUpper newTier)
  match tierOrder oldTierU, tierOrder newTierU with
  | some oldTierRank, some newTierRank =>
    if oldTierRank < newTierRank then
      (100 - oldLP) + newLP
    else if oldTierRank > newTierRank then
      -(oldLP) - (100 - newLP)
    else
      let oldDivision := GetRankValue oldRank
      let newDivision := GetRankValue newRank
      if oldDivision > newDivision then
        (100 - oldLP) + newLP
      else if oldDivision < newDivision then
        -(oldLP) - (100 - newLP)
      else
        newLP - oldLP
  | _, _ => newLP - oldLP

/-! ## Retry orchestrator (unnamed part_013) -/

/-- Errors returned by a wrapped operation.  `nonRetryable` models
`*utils.NonRetryableError` (documented in the source as "an error that should
not be retried"); `transient` models any other error. -/
inductive GoError where
  | nonRetryable (msg : String) : GoError
  | transient (msg : String) : GoError
deriving DecidableEq

/-- The only error RetryWithBackoff itself ever returns: the
`fmt.Errorf("operation failed after %d attempts: %w", config.MaxRetries, err)`
wrapper, carrying the attempt count it reports and the last operation error
(none when MaxRetries was 0 and the loop body never ran). -/
structure FailedAfterError where
  reportedAttempts : Nat
  last : Option GoError
deriving DecidableEq

/-- From part_013: RetryConfig.  Delays are time.Duration values
(nanoseconds), modelled as Int. -/
structure RetryConfig where
  maxRetries : Nat
  baseDelay : Int
  maxDelay : Int

/-- From part_013: DefaultRetryConfig = {MaxRetries: 5, BaseDelay: time.Second,
MaxDelay: 30 * time.Second}. -/
def DefaultRetryConfig : RetryConfig :=
  { maxRetries := 5, baseDelay := 1000000000, maxDelay := 30000000000 }

/-- From part_013: minDuration. -/
def minDuration (a b : Int) : Int :=
  if a < b then a else b

/-- From part_013: calculateBackoff, `baseDelay * (1 << attempt)` capped at
maxDelay. -/
def calculateBackoff (attempt : Nat) (baseDelay maxDelay : Int) : Int :=
  minDuration (baseDelay * 2 ^ attempt) maxDelay

/-- Observable outcome of one RetryWithBackoff call: the returned error (none
on success), how many times the wrapped operation was invoked, and the list of
backoff sleeps performed. -/
structure RetryTrace where
  result : Option FailedAfterError
  attempts : Nat
  sleeps : List Int
deriving DecidableEq

/-- The loop body of RetryWithBackoff.  `operation k` is the error returned by
the (k+1)-th invocation of the wrapped closure (none = success).  `fuel` is
the number of loop iterations still permitted, maintained as
`maxRetries - attempt`; the fuel-exhausted case is reachable only with
`maxRetries = 0`, where the Go loop body never runs and the wrapped error
carries a nil inner error. -/
def retryLoop (operation : Nat → Option GoError) (maxRetries : Nat)
    (baseDelay maxDelay : Int) :
    Nat → Nat → Option GoError → List Int → RetryTrace
  | 0, attempt, lastErr, sleeps =>
      ⟨some ⟨maxRetries, lastErr⟩, attempt, sleeps⟩
  | fuel + 1, attempt, _, sleeps =>
      match operation attempt with
      | none => ⟨none, attempt + 1, sleeps⟩
      | some e =>
        if attempt = maxRetries - 1 then
          ⟨some ⟨maxRetries, some e⟩, attempt + 1, sleeps⟩
        else
          retryLoop operation maxRetries baseDelay maxDelay fuel (attempt + 1)
            (some e) (sleeps ++ [calculateBackoff attempt baseDelay maxDelay])

/-- From part_013: RetryWithBackoff.  It classifies nothing: every non-nil
error, `NonRetryableError` included, goes through the same backoff loop. -/
def RetryWithBackoff (operation : Nat → Option GoError)
    (config : RetryConfig) : RetryTrace :=
  retryLoop operation config.maxRetries config.baseDelay config.maxDelay
    config.maxRetries 0 none []

/-! ## Storage model (single tracked player) -/

/-- From riot_api: the fields of MatchData read by the control flow of the
tracker.  The remaining stat-line fields are payload copied verbatim into the
matches row and never branch the logic. -/
structure MatchData where
  matchID : String
  gameDuration : Int
  win : Bool
deriving DecidableEq

/-- From riot_api: the fields of a LeagueEntry (current rank observation) the
tracker reads. -/
structure LeagueEntry where
  tier : String
  rank : String
  leaguePoints : Int
  wins : Int
  losses : Int
deriving DecidableEq

/-- From storage.go: PreviousRank (tier, rank and lp of the league_entries row). -/
structure PreviousRank where
  prevTier : String
  prevRank : String
  prevLP : Int
deriving DecidableEq

/-- From riot_api: PlacementStatus (the counters of the placement_games row). -/
structure PlacementStatus where
  totalGames : Int
  wins : Int
  losses : Int
deriving DecidableEq

/-- One lp_history row, as written by CreateNewRowInLPHistory. -/
structure LPHistoryRow where
  matchID : String
  lpChange : Int
  newLP : Int
  tier : String
  rank : String
deriving DecidableEq

/-- The persisted rows of one tracked player: the match_ids of their matches
rows, their league_entries row (none when the row is absent), their lp_history
rows, and their placement_games counters (zeros standing for an absent row,
exactly as GetCurrentPlacementGames reports it). -/
structure StorageState where
  matchRows : List String
  leagueEntry : Option PreviousRank
  lpHistory : List LPHistoryRow
  placement : PlacementStatus
deriving DecidableEq

/-- From sql_queries.go insertMatchDataSQL: INSERT INTO matches ... ON CONFLICT
(summoner_id, match_id) DO NOTHING, backed by the UNIQUE(summoner_id, match_id)
constraint of init_db.sql. -/
def insertMatchData (st : StorageState) (m : MatchData) : StorageState :=
  if st.matchRows.contains m.matchID then st
  else { st with matchRows := st.matchRows ++ [m.matchID] }

/-- From storage.go: CreateNewRowInLPHistory appends one lp_history row. -/
def CreateNewRowInLPHistory (st : StorageState) (matchID : String)
    (lpChange newLP : Int) (tier rank : String) : StorageState :=
  { st with lpHistory :=
      st.lpHistory ++ [⟨matchID, lpChange, newLP, tier, rank⟩] }

/-- From storage.go / updateLeagueEntriesSQL: an UPDATE of league_entries; it
changes nothing when the player has no league_entries row. -/
def UpdateLeagueEntry (st : StorageState) (newLP : Int)
    (newTier newRank : String) : StorageState :=
  match st.leagueEntry with
  | none => st
  | some _ => { st with leagueEntry := some ⟨newTier, newRank, newLP⟩ }

/-- From storage.go: GetPreviousRank reads the league_entries row, returning
nil (none) when there is no row. -/
def GetPreviousRank (st : StorageState) : Option PreviousRank :=
  st.leagueEntry

/-- From storage.go: IncrementPlacementGames — an upsert that adds one game
and one win or loss to the placement_games counters for the current season. -/
def IncrementPlacementGames (st : StorageState) (isWin : Bool) : StorageState :=
  { st with placement :=
      { totalGames := st.placement.totalGames + 1
        wins := st.placement.wins + (if isWin then 1 else 0)
        losses := st.placement.losses + (if isWin then 0 else 1) } }

/-- From storage.go: GetCurrentPlacementGames reads the counters, reporting
zeros when no row exists (already how StorageState.placement is encoded). -/
def GetCurrentPlacementGames (st : StorageState) : PlacementStatus :=
  st.placement

/-- From storage.go: AddPlacementMatch inserts the match row (idempotently)
and an lp_history row (match_id, 0, 0, "UNRANKED", ""). -/
def AddPlacementMatch (st : StorageState) (m : MatchData) : StorageState :=
  CreateNewRowInLPHistory (insertMatchData st m) m.matchID 0 0 "UNRANKED" ""

/-- From storage.go: AddMatchAndGetLPChange — insert the match row, read the
previous rank back from league_entries, compute the LP change, append the
lp_history row and update the league entry.  The Go code dereferences a nil
PreviousRank when league_entries has no row; that path is `none`. -/
def AddMatchAndGetLPChange (st : StorageState) (m : MatchData) (newLP : Int)
    (newRank newTier : String) : Option (StorageState × Int) :=
  let st1 := insertMatchData st m
  match GetPreviousRank st1 with
  | none => none
  | some p =>
    let lpChange :=
      CalculateLPChange p.prevTier newTier p.prevRank newRank p.prevLP newLP
    let st2 := CreateNewRowInLPHistory st1 m.matchID lpChange newLP newTier newRank
    let st3 := UpdateLeagueEntry st2 newLP newTier newRank
    some (st3, lpChange)

/-! ## Reconciliation engine (unnamed part_006, first chunk) -/

/-- The notification intents the tracker can emit for one player in one cycle
(each is announced to every watching guild).  They carry exactly the data the
corresponding embed-preparation function reads. -/
inductive Event where
  | inferredRankChange (prev : PreviousRank) (current : LeagueEntry)
      (lpChange : Int) : Event
  | placementProgress (m : MatchData) (status : PlacementStatus) : Event
  | placementCompleted (m : MatchData) (status : PlacementStatus)
      (finalRank : LeagueEntry) : Event
  | rankedMatch (m : MatchData) (current : LeagueEntry) (lpChange : Int) : Event
deriving DecidableEq

/-- From part_006: hasRankChanged — true when there is no previous rank or any
of tier, rank, LP differs. -/
def hasRankChanged (prev : Option PreviousRank) (current : LeagueEntry) : Bool :=
  match prev with
  | none => true
  | some p =>
      p.prevTier ≠ current.tier || p.prevRank ≠ current.rank ||
        p.prevLP ≠ current.leaguePoints

/-- From part_006 processNewMatch: wasInPlacements — no previous rank, or an
UNRANKED previous rank with an empty division. -/
def wasInPlacements (prev : Option PreviousRank) : Bool :=
  match prev with
  | none => true
  | some p => p.prevTier = "UNRANKED" && p.prevRank = ""

/-- From part_006: processRankChange — the inferred-skip ("dodge") path:
compute the LP change from previous vs current snapshot, update the league
entry, append an lp_history row with the sentinel match id "DODGE", and emit
the rank-change notification.  No matches row is touched. -/
def processRankChange (st : StorageState) (p : PreviousRank)
    (current : LeagueEntry) : StorageState × List Event :=
  let lpChange := CalculateLPChange p.prevTier current.tier p.prevRank
    current.rank p.prevLP current.leaguePoints
  let st1 := UpdateLeagueEntry st current.leaguePoints current.tier current.rank
  let st2 := CreateNewRowInLPHistory st1 "DODGE" lpChange current.leaguePoints
    current.tier current.rank
  (st2, [Event.inferredRankChange p current lpChange])

/-- From part_006: processNewMatch, with every storage call succeeding (error
returns abandon the cycle and are outside the claims considered).  In the
placement branch: increment the counters unless the game is a remake
(duration < 210), record the match via AddPlacementMatch, re-read the
counters, then emit completion (also updating the stored rank) when the
fetched tier is no longer UNRANKED or the counter equals 5, else progress.
In the ranked branch: AddMatchAndGetLPChange then the ranked-match event. -/
def processNewMatch (st : StorageState) (prev : Option PreviousRank)
    (current : LeagueEntry) (newMatch : MatchData) :
    Option (StorageState × List Event) :=
  let isRemake := newMatch.gameDuration < 210
  if wasInPlacements prev then
    let st1 := if ¬ isRemake then IncrementPlacementGames st newMatch.win else st
    let st2 := AddPlacementMatch st1 newMatch
    let updatedStatus := GetCurrentPlacementGames st2
    if current.tier ≠ "UNRANKED" ∨ updatedStatus.totalGames = 5 then
      let st3 := UpdateLeagueEntry st2 current.leaguePoints current.tier
        current.rank
      some (st3, [Event.placementCompleted newMatch updatedStatus current])
    else
      some (st2, [Event.placementProgress newMatch updatedStatus])
  else
    match AddMatchAndGetLPChange st newMatch current.leaguePoints current.rank
        current.tier with
    | none => none
    | some (st1, lpChange) =>
      some (st1, [Event.rankedMatch newMatch current lpChange])

/-- The stored state right after the placement branch of processNewMatch has
recorded a game: counters incremented unless the game is a remake
(duration < 210), then the match row and its zero lp_history row via
AddPlacementMatch.  Derived from the first half of that branch; used to state
claims about it. -/
def placementRecorded (st : StorageState) (m : MatchData) : StorageState :=
  AddPlacementMatch
    (if m.gameDuration < 210 then st else IncrementPlacementGames st m.win) m

/-- From part_006: checkSummonerUpdates — one reconciliation cycle for one
player, given the freshly fetched rank `current`, whether a new match was
found, and that match.  The previous rank is read from storage.  A cycle where
no match was found, the rank changed, and no previous rank exists would
dereference nil inside processRankChange; that path is `none`. -/
def checkSummonerUpdates (st : StorageState) (current : LeagueEntry)
    (matchFound : Bool) (newMatch : MatchData) :
    Option (StorageState × List Event) :=
  let prev := GetPreviousRank st
  if matchFound then
    processNewMatch st prev current newMatch
  else if hasRankChanged prev current then
    match prev with
    | some p => some (processRankChange st p current)
    | none => none
  else
    some (st, [])

/-! ## Helper lemmas -/

/-- Observing the same tier, division and LP twice always yields a zero LP
change, whatever the strings are. -/
theorem calculateLPChange_refl (t r : String) (lp : Int) :
    CalculateLPChange t t r r lp lp = 0 := by
  simp only [CalculateLPChange]
  cases h : highTiers (goToUpper t) && highTiers (goToUpper t) <;> simp [h]

/-! ## Claims about the rank ladder model -/

/-- Claim C1: for observations whose tiers are both recognized and not both
apex, a strictly higher new tier (or, with equal tiers, a strictly higher new
division) yields the promotion delta `(100 - oldLP) + newLP`, and a strictly
lower one yields the demotion delta `-(oldLP) - (100 - newLP)`. -/
theorem calculateLPChange_promotion_demotion
    (oldTier newTier oldRank newRank : String) (oldLP newLP : Int) (o n : Int)
    (ho : tierOrder (goToUpper oldTier) = some o)
    (hn : tierOrder (goToUpper newTier) = some n)
    (hapex : (highTiers (goToUpper oldTier) && highTiers (goToUpper newTier)) = false) :
    (o < n → CalculateLPChange oldTier newTier oldRank newRank oldLP newLP
        = (100 - oldLP) + newLP) ∧
    (n < o → CalculateLPChange oldTier newTier oldRank newRank oldLP newLP
        = -(oldLP) - (100 - newLP)) ∧
    ((goToUpper oldTier) = (goToUpper newTier) →
      GetRankValue oldRank < GetRankValue newRank →
      CalculateLPChange oldTier newTier oldRank newRank oldLP newLP
        = (100 - oldLP) + newLP) ∧
    ((goToUpper oldTier) = (goToUpper newTier) →
      GetRankValue newRank < GetRankValue oldRank →
      CalculateLPChange oldTier newTier oldRank newRank oldLP newLP
        = -(oldLP) - (100 - newLP)) := by
  refine ⟨?_, ?_, ?_, ?_⟩
  · intro hlt
    have hne : (goToUpper oldTier) ≠ (goToUpper newTier) := by
      intro heq
      rw [heq, hn] at ho
      exact absurd (Option.some.inj ho) (by omega)
    simp [CalculateLPChange, hapex, hne, ho, hn, hlt]
  · intro hlt
    have hne : (goToUpper oldTier) ≠ (goToUpper newTier) := by
      intro heq
      rw [heq, hn] at ho
      exact absurd (Option.some.inj ho) (by omega)
    simp [CalculateLPChange, hapex, hne, ho, hn, not_lt_of_gt hlt]
  · intro heq hdiv
    rw [heq, Bool.and_self] at hapex
    simp [CalculateLPChange, hapex, heq, hdiv, ne_of_gt hdiv]
    exact fun h => absurd h (ne_of_lt hdiv)
  · intro heq hdiv
    rw [heq, Bool.and_self] at hapex
    simp [CalculateLPChange, hapex, heq, (ne_of_gt hdiv).symm, not_lt_of_gt hdiv]
    exact fun h => absurd h.symm (ne_of_lt hdiv)

/-- Witness for claim C1, the division-demotion instance from the claim:
(GOLD, III, 10) → (GOLD, IV, 95) yields -15. -/
theorem calculateLPChange_promotion_demotion_witness :
    CalculateLPChange "GOLD" "GOLD" "III" "IV" 10 95 = -15 := by
  have h := (calculateLPChange_promotion_demotion "GOLD" "GOLD" "III" "IV"
    10 95 3 3 (by decide) (by decide) (by decide)).2.2.2 (by decide) (by decide)
  rw [h]
  decide

/-- Claim C2: when both tiers are in the apex set, the delta is the plain
linear diff `newLP - oldLP`, for every pair of division strings (the divisions
are never consulted). -/
theorem calculateLPChange_apex_linear
    (oldTier newTier oldRank newRank : String) (oldLP newLP : Int)
    (ho : highTiers (goToUpper oldTier) = true)
    (hn : highTiers (goToUpper newTier) = true) :
    CalculateLPChange oldTier newTier oldRank newRank oldLP newLP
      = newLP - oldLP := by
  simp [CalculateLPChange, ho, hn]

/-- Witness for claim C2: (MASTER, 200) → (MASTER, 150) yields -50, even with
unequal division strings present. -/
theorem calculateLPChange_apex_linear_witness :
    CalculateLPChange "MASTER" "MASTER" "I" "IV" 200 150 = -50 := by
  have h := calculateLPChange_apex_linear "MASTER" "MASTER" "I" "IV" 200 150
    (by decide) (by decide)
  rw [h]
  decide

/-- Claim C3 (code bug): on an unrecognized old tier, the current
CalculateLPChange does not fall back to the naive linear diff — the Go map
read gives the unknown tier order 0 and the promotion formula fires,
returning 100 where the claim (and the older version of the function, which
checks membership explicitly) gives 50 - 50 = 0. -/
theorem calculateLPChange_unknown_tier_promotes :
    CalculateLPChange "FOO" "GOLD" "" "" 50 50 = 100 ∧
    CalculateLPChangeOld "FOO" "GOLD" "" "" 50 50 = 50 - 50 := by
  constructor <;> decide

/-- Claim C10: GetRankValue is total and case-insensitive — 4/3/2/1 for
I/II/III/IV in any letter case and 0 for every other string — and two
observations whose division strings are both unrecognized always compare as
equal divisions, so with equal tier strings the delta is the plain linear
diff. -/
theorem getRankValue_total_case_insensitive :
    (GetRankValue "i" = 4 ∧ GetRankValue "I" = 4 ∧ GetRankValue "ii" = 3 ∧
     GetRankValue "II" = 3 ∧ GetRankValue "iIi" = 2 ∧ GetRankValue "III" = 2 ∧
     GetRankValue "iv" = 1 ∧ GetRankValue "IV" = 1 ∧ GetRankValue "" = 0) ∧
    (∀ r : String,
      (goToUpper r) ≠ "I" → (goToUpper r) ≠ "II" → (goToUpper r) ≠ "III" →
      (goToUpper r) ≠ "IV" → GetRankValue r = 0) ∧
    (∀ r₁ r₂ : String,
      (goToUpper r₁) ≠ "I" → (goToUpper r₁) ≠ "II" → (goToUpper r₁) ≠ "III" →
      (goToUpper r₁) ≠ "IV" →
      (goToUpper r₂) ≠ "I" → (goToUpper r₂) ≠ "II" → (goToUpper r₂) ≠ "III" →
      (goToUpper r₂) ≠ "IV" →
      GetRankValue r₁ = GetRankValue r₂ ∧
      ∀ (t : String) (oldLP newLP : Int),
        CalculateLPChange t t r₁ r₂ oldLP newLP = newLP - oldLP) := by
  refine ⟨by decide, ?_, ?_⟩
  · intro r h1 h2 h3 h4
    simp [GetRankValue, h1, h2, h3, h4]
  · intro r₁ r₂ h1 h2 h3 h4 h5 h6 h7 h8
    have hz1 : GetRankValue r₁ = 0 := by simp [GetRankValue, h1, h2, h3, h4]
    have hz2 : GetRankValue r₂ = 0 := by simp [GetRankValue, h5, h6, h7, h8]
    refine ⟨hz1.trans hz2.symm, ?_⟩
    intro t oldLP newLP
    simp only [CalculateLPChange]
    cases h : highTiers (goToUpper t) && highTiers (goToUpper t) <;> simp [h, hz1, hz2]

/-- Witness for claim C10: "V" and "" are both unrecognized, map to 0, and an
apex-less same-tier pair with those divisions gets the linear diff. -/
theorem getRankValue_total_case_insensitive_witness :
    GetRankValue "V" = 0 ∧ GetRankValue "V" = GetRankValue "" ∧
    CalculateLPChange "GOLD" "GOLD" "V" "" 40 55 = 55 - 40 := by
  have h := getRankValue_total_case_insensitive
  refine ⟨h.2.1 "V" (by decide) (by decide) (by decide) (by decide), ?_, ?_⟩
  · exact (h.2.2 "V" "" (by decide) (by decide) (by decide) (by decide)
      (by decide) (by decide) (by decide) (by decide)).1
  · exact (h.2.2 "V" "" (by decide) (by decide) (by decide) (by decide)
      (by decide) (by decide) (by decide) (by decide)).2 "GOLD" 40 55

/-! ## Claim about the retry orchestrator -/

/-- Claim C5 (code bug): RetryWithBackoff does not return early on a
NonRetryableError.  An operation that always fails with one is invoked all 5
times under DefaultRetryConfig, with 4 exponential backoff sleeps
(1s, 2s, 4s, 8s in nanoseconds), and the caller receives the
"operation failed after 5 attempts" wrapper — not an immediate return after
the first attempt as the claim states. -/
theorem retryWithBackoff_retries_nonretryable :
    RetryWithBackoff (fun _ => some (GoError.nonRetryable "summoner not found"))
        DefaultRetryConfig
      = ⟨some ⟨5, some (GoError.nonRetryable "summoner not found")⟩, 5,
         [1000000000, 2000000000, 4000000000, 8000000000]⟩ := by
  decide

/-! ## Helper lemmas about the storage model -/

/-- UpdateLeagueEntry only touches the league_entries row. -/
theorem UpdateLeagueEntry_matchRows (st : StorageState) (lp : Int)
    (t r : String) : (UpdateLeagueEntry st lp t r).matchRows = st.matchRows := by
  unfold UpdateLeagueEntry
  cases st.leagueEntry <;> rfl

/-- UpdateLeagueEntry leaves the placement counters alone. -/
theorem UpdateLeagueEntry_placement (st : StorageState) (lp : Int)
    (t r : String) : (UpdateLeagueEntry st lp t r).placement = st.placement := by
  unfold UpdateLeagueEntry
  cases st.leagueEntry <;> rfl

/-- CreateNewRowInLPHistory leaves the matches table alone. -/
theorem CreateNewRowInLPHistory_matchRows (st : StorageState) (a : String)
    (b c : Int) (d e : String) :
    (CreateNewRowInLPHistory st a b c d e).matchRows = st.matchRows := rfl

/-- CreateNewRowInLPHistory leaves the placement counters alone. -/
theorem CreateNewRowInLPHistory_placement (st : StorageState) (a : String)
    (b c : Int) (d e : String) :
    (CreateNewRowInLPHistory st a b c d e).placement = st.placement := rfl

/-- After insertMatchData the match id is stored, whether or not the row
already existed. -/
theorem insertMatchData_mem (st : StorageState) (m : MatchData) :
    m.matchID ∈ (insertMatchData st m).matchRows := by
  by_cases h : m.matchID ∈ st.matchRows <;> simp [insertMatchData, h]

/-- insertMatchData leaves the placement counters alone. -/
theorem insertMatchData_placement (st : StorageState) (m : MatchData) :
    (insertMatchData st m).placement = st.placement := by
  unfold insertMatchData
  split <;> rfl

/-- The match id is stored after the placement branch records the game,
whether or not the game was a remake and whether or not the row already
existed. -/
theorem placementRecorded_mem (st : StorageState) (m : MatchData) :
    m.matchID ∈ (placementRecorded st m).matchRows := by
  unfold placementRecorded AddPlacementMatch
  rw [CreateNewRowInLPHistory_matchRows]
  exact insertMatchData_mem _ m

/-- The placement counters after the placement branch records the game:
unchanged for a remake, incremented (with the right win/loss split)
otherwise. -/
theorem placementRecorded_placement (st : StorageState) (m : MatchData) :
    (placementRecorded st m).placement =
      if m.gameDuration < 210 then st.placement
      else ⟨st.placement.totalGames + 1,
            st.placement.wins + (if m.win then 1 else 0),
            st.placement.losses + (if m.win then 0 else 1)⟩ := by
  unfold placementRecorded AddPlacementMatch
  rw [CreateNewRowInLPHistory_placement, insertMatchData_placement]
  by_cases hrem : m.gameDuration < 210 <;> simp [hrem, IncrementPlacementGames]

/-- Reduction of a poll cycle with a new match for a player whose stored rank
is the unranked sentinel row: the placement branch runs, and the completion
test decides which event comes out. -/
theorem checkSummonerUpdates_placement_branch
    (st : StorageState) (current : LeagueEntry) (m : MatchData)
    (p : PreviousRank) (hp : st.leagueEntry = some p)
    (ht : p.prevTier = "UNRANKED") (hr : p.prevRank = "") :
    checkSummonerUpdates st current true m =
      if current.tier ≠ "UNRANKED" ∨
          (placementRecorded st m).placement.totalGames = 5 then
        some (UpdateLeagueEntry (placementRecorded st m)
                current.leaguePoints current.tier current.rank,
              [Event.placementCompleted m (placementRecorded st m).placement
                current])
      else
        some (placementRecorded st m,
              [Event.placementProgress m (placementRecorded st m).placement]) := by
  have hplace : wasInPlacements (some p) = true := by
    simp [wasInPlacements, ht, hr]
  by_cases hrem : m.gameDuration < 210 <;>
    simp [checkSummonerUpdates, GetPreviousRank, hp, processNewMatch, hplace,
      placementRecorded, GetCurrentPlacementGames, hrem]

/-! ## Claims about the reconciliation engine -/

/-- Claim C4: a poll cycle with no new match but a changed rank snapshot
computes the delta with CalculateLPChange from the previous and current
snapshots, updates the stored rank, appends an lp_history row tagged with the
sentinel match id "DODGE" (the inferred-skip marker), emits the inferred
rank-change event, and writes no match row and no placement update — for any
storage state, in particular one with no match rows at all. -/
theorem checkSummonerUpdates_inferred_skip
    (st : StorageState) (current : LeagueEntry) (newMatch : MatchData)
    (p : PreviousRank) (hp : st.leagueEntry = some p)
    (hchanged : hasRankChanged (some p) current = true) :
    checkSummonerUpdates st current false newMatch =
      some ({ st with
                leagueEntry :=
                  some ⟨current.tier, current.rank, current.leaguePoints⟩,
                lpHistory := st.lpHistory ++
                  [⟨"DODGE",
                    CalculateLPChange p.prevTier current.tier p.prevRank
                      current.rank p.prevLP current.leaguePoints,
                    current.leaguePoints, current.tier, current.rank⟩] },
            [Event.inferredRankChange p current
              (CalculateLPChange p.prevTier current.tier p.prevRank
                current.rank p.prevLP current.leaguePoints)]) := by
  simp [checkSummonerUpdates, GetPreviousRank, hp, hchanged, processRankChange,
    UpdateLeagueEntry, CreateNewRowInLPHistory]

/-- Witness for claim C4: a concrete cycle with no match found and LP moving
50 → 75 inside GOLD I produces exactly the league-entry update, the "DODGE"
lp_history row with delta 25, and the inferred event — and no match row. -/
theorem checkSummonerUpdates_inferred_skip_witness :
    checkSummonerUpdates ⟨[], some ⟨"GOLD", "I", 50⟩, [], ⟨0, 0, 0⟩⟩
        ⟨"GOLD", "I", 75, 10, 5⟩ false ⟨"EUW1_1", 1800, true⟩ =
      some (⟨[], some ⟨"GOLD", "I", 75⟩, [⟨"DODGE", 25, 75, "GOLD", "I"⟩],
             ⟨0, 0, 0⟩⟩,
            [Event.inferredRankChange ⟨"GOLD", "I", 50⟩
              ⟨"GOLD", "I", 75, 10, 5⟩ 25]) := by
  have h := checkSummonerUpdates_inferred_skip
    ⟨[], some ⟨"GOLD", "I", 50⟩, [], ⟨0, 0, 0⟩⟩ ⟨"GOLD", "I", 75, 10, 5⟩
    ⟨"EUW1_1", 1800, true⟩ ⟨"GOLD", "I", 50⟩ rfl (by decide)
  rw [h]
  decide

/-- Claim C9: a poll cycle with no new match and an unchanged rank snapshot
returns the storage state untouched and emits no event. -/
theorem checkSummonerUpdates_quiet_cycle
    (st : StorageState) (current : LeagueEntry) (newMatch : MatchData)
    (p : PreviousRank) (hp : st.leagueEntry = some p)
    (ht : p.prevTier = current.tier) (hr : p.prevRank = current.rank)
    (hlp : p.prevLP = current.leaguePoints) :
    checkSummonerUpdates st current false newMatch = some (st, []) := by
  have hnc : hasRankChanged (some p) current = false := by
    simp [hasRankChanged, ht, hr, hlp]
  simp [checkSummonerUpdates, GetPreviousRank, hp, hnc]

/-- Witness for claim C9: a concrete quiet cycle leaves the state bit-for-bit
unchanged and produces the empty event list. -/
theorem checkSummonerUpdates_quiet_cycle_witness :
    checkSummonerUpdates ⟨["EUW1_0"], some ⟨"GOLD", "I", 50⟩, [], ⟨0, 0, 0⟩⟩
        ⟨"GOLD", "I", 50, 10, 5⟩ false ⟨"EUW1_1", 1800, true⟩ =
      some (⟨["EUW1_0"], some ⟨"GOLD", "I", 50⟩, [], ⟨0, 0, 0⟩⟩, []) :=
  checkSummonerUpdates_quiet_cycle
    ⟨["EUW1_0"], some ⟨"GOLD", "I", 50⟩, [], ⟨0, 0, 0⟩⟩
    ⟨"GOLD", "I", 50, 10, 5⟩ ⟨"EUW1_1", 1800, true⟩ ⟨"GOLD", "I", 50⟩
    rfl rfl rfl rfl

/-- Claim C6: with a new match and an unranked previous state, after the
match is recorded: if the fetched tier is no longer UNRANKED or the updated
counter equals the cap 5, the cycle updates the stored rank to the fetched
snapshot and emits placement-completed carrying that snapshot and the tally;
otherwise it emits placement-progress carrying the updated tally and leaves
the stored rank alone. -/
theorem processNewMatch_placement_completion
    (st : StorageState) (current : LeagueEntry) (m : MatchData)
    (p : PreviousRank) (hp : st.leagueEntry = some p)
    (ht : p.prevTier = "UNRANKED") (hr : p.prevRank = "") :
    (current.tier ≠ "UNRANKED" ∨
        (placementRecorded st m).placement.totalGames = 5 →
      checkSummonerUpdates st current true m =
        some (UpdateLeagueEntry (placementRecorded st m)
                current.leaguePoints current.tier current.rank,
              [Event.placementCompleted m (placementRecorded st m).placement
                current])) ∧
    (current.tier = "UNRANKED" →
      (placementRecorded st m).placement.totalGames ≠ 5 →
      checkSummonerUpdates st current true m =
        some (placementRecorded st m,
              [Event.placementProgress m
                (placementRecorded st m).placement])) := by
  have hbr := checkSummonerUpdates_placement_branch st current m p hp ht hr
  constructor
  · intro hc
    rw [hbr, if_pos hc]
  · intro ht2 hn
    have hneg : ¬ (current.tier ≠ "UNRANKED" ∨
        (placementRecorded st m).placement.totalGames = 5) := by
      rintro (h | h)
      · exact h ht2
      · exact hn h
    rw [hbr, if_neg hneg]

/-- Witness for claim C6: a fifth non-remake placement win while the fetched
rank is SILVER II completes placements — the stored rank becomes SILVER II 45
and the completed event carries the 5-game 4W/1L tally. -/
theorem processNewMatch_placement_completion_witness :
    checkSummonerUpdates ⟨[], some ⟨"UNRANKED", "", 0⟩, [], ⟨4, 3, 1⟩⟩
        ⟨"SILVER", "II", 45, 6, 4⟩ true ⟨"EUW1_9", 1900, true⟩ =
      some (⟨["EUW1_9"], some ⟨"SILVER", "II", 45⟩,
             [⟨"EUW1_9", 0, 0, "UNRANKED", ""⟩], ⟨5, 4, 1⟩⟩,
            [Event.placementCompleted ⟨"EUW1_9", 1900, true⟩ ⟨5, 4, 1⟩
              ⟨"SILVER", "II", 45, 6, 4⟩]) := by
  have h := (processNewMatch_placement_completion
    ⟨[], some ⟨"UNRANKED", "", 0⟩, [], ⟨4, 3, 1⟩⟩ ⟨"SILVER", "II", 45, 6, 4⟩
    ⟨"EUW1_9", 1900, true⟩ ⟨"UNRANKED", "", 0⟩ rfl rfl rfl).1
    (Or.inl (by decide))
  rw [h]
  decide

/-- Claim C7: with a new match and an unranked previous state, the cycle
stores the match row in every case, and advances the placement counters
exactly when the game is not a remake (duration at least 210 seconds), with
the win/loss split following the match result. -/
theorem processNewMatch_placement_counters
    (st : StorageState) (current : LeagueEntry) (m : MatchData)
    (p : PreviousRank) (hp : st.leagueEntry = some p)
    (ht : p.prevTier = "UNRANKED") (hr : p.prevRank = "") :
    ∃ st2 events, checkSummonerUpdates st current true m = some (st2, events) ∧
      m.matchID ∈ st2.matchRows ∧
      st2.placement.totalGames =
        st.placement.totalGames + (if m.gameDuration < 210 then 0 else 1) ∧
      st2.placement.wins =
        st.placement.wins +
          (if m.gameDuration < 210 then 0 else if m.win then 1 else 0) ∧
      st2.placement.losses =
        st.placement.losses +
          (if m.gameDuration < 210 then 0 else if m.win then 0 else 1) := by
  have hbr := checkSummonerUpdates_placement_branch st current m p hp ht hr
  have hmem := placementRecorded_mem st m
  have hpl := placementRecorded_placement st m
  by_cases hc : current.tier ≠ "UNRANKED" ∨
      (placementRecorded st m).placement.totalGames = 5
  · rw [hbr, if_pos hc]
    refine ⟨_, _, rfl, ?_, ?_, ?_, ?_⟩
    · rw [UpdateLeagueEntry_matchRows]
      exact hmem
    · rw [UpdateLeagueEntry_placement, hpl]
      by_cases hrem : m.gameDuration < 210 <;> simp [hrem]
    · rw [UpdateLeagueEntry_placement, hpl]
      by_cases hrem : m.gameDuration < 210 <;> simp [hrem]
    · rw [UpdateLeagueEntry_placement, hpl]
      by_cases hrem : m.gameDuration < 210 <;> simp [hrem]
  · rw [hbr, if_neg hc]
    refine ⟨_, _, rfl, hmem, ?_, ?_, ?_⟩ <;>
      rw [hpl] <;> by_cases hrem : m.gameDuration < 210 <;> simp [hrem]

/-- Witness for claim C7: a remake (100 seconds) while unranked stores the
match but leaves the 2-game 1W/1L counters untouched. -/
theorem processNewMatch_placement_counters_witness :
    ∃ st2 events,
      checkSummonerUpdates ⟨[], some ⟨"UNRANKED", "", 0⟩, [], ⟨2, 1, 1⟩⟩
          ⟨"UNRANKED", "", 0, 0, 0⟩ true ⟨"EUW1_5", 100, true⟩
        = some (st2, events) ∧
      "EUW1_5" ∈ st2.matchRows ∧ st2.placement.totalGames = 2 ∧
      st2.placement.wins = 1 ∧ st2.placement.losses = 1 := by
  obtain ⟨st2, events, h1, h2, h3, h4, h5⟩ :=
    processNewMatch_placement_counters
      ⟨[], some ⟨"UNRANKED", "", 0⟩, [], ⟨2, 1, 1⟩⟩ ⟨"UNRANKED", "", 0, 0, 0⟩
      ⟨"EUW1_5", 100, true⟩ ⟨"UNRANKED", "", 0⟩ rfl rfl rfl
  exact ⟨st2, events, h1, h2, by simpa using h3, by simpa using h4,
    by simpa using h5⟩

/-- Second insertion of a match the store already holds, with the league
entry already carrying the rank that came with it: the match insert is a
no-op and the computed LP change is 0. -/
theorem addMatch_second_call (st : StorageState) (m : MatchData) (newLP : Int)
    (newRank newTier : String)
    (hp : st.leagueEntry = some ⟨newTier, newRank, newLP⟩)
    (hc : m.matchID ∈ st.matchRows) :
    AddMatchAndGetLPChange st m newLP newRank newTier =
      some ({ st with lpHistory :=
                st.lpHistory ++ [⟨m.matchID, 0, newLP, newTier, newRank⟩] },
            0) := by
  simp [AddMatchAndGetLPChange, insertMatchData, hc, GetPreviousRank, hp,
    CreateNewRowInLPHistory, UpdateLeagueEntry, calculateLPChange_refl]

/-- Claim C8: submitting the same match twice for the same player is
idempotent — the second call succeeds (as a no-op on the matches table rather
than an error), exactly one match row for that match id exists afterwards,
the second LP change is 0, and the stored league entry is unchanged by the
second call. -/
theorem addMatch_idempotent
    (st : StorageState) (m : MatchData) (newLP : Int) (newRank newTier : String)
    (p : PreviousRank) (hp : st.leagueEntry = some p)
    (hm : m.matchID ∉ st.matchRows) :
    ∃ st1 d1, AddMatchAndGetLPChange st m newLP newRank newTier
        = some (st1, d1) ∧
      ∃ st2, AddMatchAndGetLPChange st1 m newLP newRank newTier
          = some (st2, 0) ∧
        st2.matchRows = st1.matchRows ∧
        st2.matchRows.count m.matchID = 1 ∧
        st2.leagueEntry = st1.leagueEntry := by
  have h1 : AddMatchAndGetLPChange st m newLP newRank newTier =
      some ({ st with
                matchRows := st.matchRows ++ [m.matchID],
                lpHistory := st.lpHistory ++
                  [⟨m.matchID,
                    CalculateLPChange p.prevTier newTier p.prevRank newRank
                      p.prevLP newLP, newLP, newTier, newRank⟩],
                leagueEntry := some ⟨newTier, newRank, newLP⟩ },
            CalculateLPChange p.prevTier newTier p.prevRank newRank
              p.prevLP newLP) := by
    simp [AddMatchAndGetLPChange, insertMatchData, hm, GetPreviousRank, hp,
      CreateNewRowInLPHistory, UpdateLeagueEntry]
  refine ⟨_, _, h1, _,
    addMatch_second_call _ m newLP newRank newTier rfl (by simp), rfl, ?_, rfl⟩
  simp only [List.count_append]
  rw [List.count_eq_zero.mpr hm]
  simp

/-- Witness for claim C8: inserting match EUW1_7 twice against a GOLD II
entry — the first call returns the 15-LP delta, the second returns delta 0
with a single stored row. -/
theorem addMatch_idempotent_witness :
    ∃ st1 d1, AddMatchAndGetLPChange ⟨[], some ⟨"GOLD", "II", 50⟩, [],
          ⟨0, 0, 0⟩⟩ ⟨"EUW1_7", 1800, true⟩ 65 "II" "GOLD"
        = some (st1, d1) ∧
      ∃ st2, AddMatchAndGetLPChange st1 ⟨"EUW1_7", 1800, true⟩ 65 "II" "GOLD"
          = some (st2, 0) ∧
        st2.matchRows = st1.matchRows ∧
        st2.matchRows.count "EUW1_7" = 1 ∧
        st2.leagueEntry = st1.leagueEntry :=
  addMatch_idempotent ⟨[], some ⟨"GOLD", "II", 50⟩, [], ⟨0, 0, 0⟩⟩
    ⟨"EUW1_7", 1800, true⟩ 65 "II" "GOLD" ⟨"GOLD", "II", 50⟩ rfl
    (by decide)

end LeagueTracker
